import Mathlib

/-
Verification of the winvault interop/marshaling layer.

The Go sources are embedded shallowly:
- Go strings are byte sequences (a Go string is an immutable byte slice), so
  they are modelled as List Nat of byte values; the conversions string <-> []byte
  copy the bytes unchanged.
- Raw native memory regions are modelled explicitly: a wide-string buffer is the
  list of 16-bit code units reachable from the pointer (carrying the invariant
  that a zero terminator occurs within the modelled region, since the Go scan
  loop only terminates on such buffers); a raw byte region is a function from
  offsets to byte values.
- Native calls are modelled by oracle parameters describing the native layer's
  response (status code plus output data) for the call at hand; the wrappers in
  syscall.go become pure functions of these oracles.  Buffer-free operations are
  counted explicitly where a claim is about them.
- Machine integers: the Go int32/uint32 fields carry Int/Nat values; where Go
  int64 overflow semantics matter (Filetime.Nanoseconds) the wrap-around is
  modelled explicitly via int64Wrap.
-/

set_option autoImplicit false

namespace Winvault

/-- A Go string, modelled as its byte sequence (Go strings are immutable byte
slices; they need not be valid UTF-8). -/
abbrev GoString := List Nat

/-- A Go byte slice. -/
abbrev GoBytes := List Nat

/-- The Go conversion []byte(s): copies the bytes of the string. -/
def goStringToBytes (s : GoString) : GoBytes := s

/-- The Go conversion string(b): copies the bytes into a string. -/
def goBytesToString (b : GoBytes) : GoString := b

/-- Modelled from the Go standard library, unicode/utf16.Decode: a code unit
below 0xD800 or at/above 0xE000 is taken as the rune itself; a high surrogate
followed by a low surrogate combines into a supplementary rune consuming both
units; any other (unpaired) surrogate becomes the replacement rune 0xFFFD. -/
def utf16DecodeLoop : List Nat → List Nat
  | [] => []
  | [r] => if r < 0xD800 ∨ 0xE000 ≤ r then [r] else [0xFFFD]
  | r :: r2 :: rest =>
    if r < 0xD800 ∨ 0xE000 ≤ r then
      r :: utf16DecodeLoop (r2 :: rest)
    else if r < 0xDC00 ∧ 0xDC00 ≤ r2 ∧ r2 < 0xE000 then
      ((r - 0xD800) * 1024 + (r2 - 0xDC00) + 0x10000) :: utf16DecodeLoop rest
    else
      0xFFFD :: utf16DecodeLoop (r2 :: rest)

/-- Modelled from the Go standard library, unicode/utf8.EncodeRune as used by
the []rune-to-string conversion: runes below 0x80 take one byte, below 0x800
two bytes, surrogate values and values above 0x10FFFF encode the replacement
rune bytes EF BF BD, below 0x10000 three bytes, otherwise four bytes. -/
def utf8EncodeRune (r : Nat) : List Nat :=
  if r ≤ 0x7F then [r]
  else if r ≤ 0x7FF then [0xC0 + r / 64, 0x80 + r % 64]
  else if 0x10FFFF < r ∨ (0xD800 ≤ r ∧ r ≤ 0xDFFF) then [0xEF, 0xBF, 0xBD]
  else if r ≤ 0xFFFF then [0xE0 + r / 4096, 0x80 + r / 64 % 64, 0x80 + r % 64]
  else [0xF0 + r / 262144, 0x80 + r / 4096 % 64, 0x80 + r / 64 % 64, 0x80 + r % 64]

/-- The Go conversion string(rs) for a rune slice rs: UTF-8 encode each rune. -/
def stringOfRunes (rs : List Nat) : GoString :=
  (rs.map utf8EncodeRune).flatten

/-- A non-null wide-string pointer, modelled as the sequence of 16-bit code
units in the memory region reachable from the pointer.  The invariant that a
zero unit occurs in the region reflects that the Go scan loop in
utf16PtrToString terminates only on zero-terminated buffers. -/
def WideBuf := { l : List Nat // 0 ∈ l }

/-- The scan loop of utf16PtrToString (part_001 lines 18-27): starting at the
pointer, read code units one at a time until a zero unit is found.  Returns
the code units strictly before the first zero together with the total number
of code units read (the terminator included).  The loop never dereferences an
offset past the first zero unit, which the recursion mirrors: the tail beyond
the zero is never inspected. -/
def utf16Scan : (l : List Nat) → 0 ∈ l → List Nat × Nat
  | [], h => nomatch h
  | u :: rest, h =>
    if hu : u = 0 then ([], 1)
    else
      have h' : 0 ∈ rest := (List.mem_cons.mp h).resolve_left fun h0 => hu h0.symm
      let p := utf16Scan rest h'
      (u :: p.1, p.2 + 1)

/-- utf16PtrToString (part_001 lines 16-30): a null pointer yields the empty
string; otherwise the zero-terminated run of code units is scanned and decoded
as UTF-16 into an owned Go string. -/
def utf16PtrToString (wstr : Option WideBuf) : GoString :=
  match wstr with
  | some buf => stringOfRunes (utf16DecodeLoop (utf16Scan buf.1 buf.2).1)
  | none => []

/-- goBytes (part_001 lines 34-45): a null source pointer yields the empty
slice; otherwise exactly len bytes are copied from the source region into a
fresh slice.  The source region is modelled as a function from byte offsets
to byte values. -/
def goBytes (src : Option (Nat → Nat)) (len : Nat) : GoBytes :=
  match src with
  | none => []
  | some mem => (List.range len).map mem

/-- The Go type sysVaultElementType (syscall.go line 31) is int32. -/
abbrev sysVaultElementType := Int

def vaultElementTypeUndefined : sysVaultElementType := -1
def vaultElementTypeBoolean : sysVaultElementType := 0
def vaultElementTypeShort : sysVaultElementType := 1
def vaultElementTypeUnsignedShort : sysVaultElementType := 2
def vaultElementTypeInteger : sysVaultElementType := 3
def vaultElementTypeUnsignedInteger : sysVaultElementType := 4
def vaultElementTypeDouble : sysVaultElementType := 5
def vaultElementTypeGUID : sysVaultElementType := 6
def vaultElementTypeString : sysVaultElementType := 7
def vaultElementTypeByteArray : sysVaultElementType := 8
def vaultElementTypeTimeStamp : sysVaultElementType := 9
def vaultElementTypeProtectedArray : sysVaultElementType := 10
def vaultElementTypeAttribute : sysVaultElementType := 11
def vaultElementTypeSid : sysVaultElementType := 12
def vaultElementTypeLast : sysVaultElementType := 13

/-- A raw native element record (syscall.go lines 60-76).  The common header
carries the role id and the native type tag.  The trailing memory after the
header is type-dependent; the Go code reinterprets the record by pointer cast
as sysVaultElementString (trailing wide-string pointer Data) or as
sysVaultElementByteArray (trailing Length and Value pointer).  Both cast views
of the trailing memory are carried here so that reading (or not reading) each
view can be stated; for the pointers, none models a null pointer. -/
structure sysVaultElement where
  ID : Int
  type : sysVaultElementType
  strData : Option WideBuf
  baLength : Nat
  baValue : Option (Nat → Nat)

/-- The Go type ElementType (part_000 line 73) is an int enumeration. -/
abbrev ElementType := Nat

/-- ElementTypeString corresponds to string elements. -/
def ElementTypeString : ElementType := 0

/-- ElementTypeByteArray corresponds to byte-array elements. -/
def ElementTypeByteArray : ElementType := 1

/-- VaultItemElementString (part_000 lines 59-62): an owned string element. -/
structure VaultItemElementString where
  id : Int
  value : GoString
  deriving DecidableEq

/-- VaultItemElementByteArray (part_000 lines 66-69): an owned byte-array
element. -/
structure VaultItemElementByteArray where
  id : Int
  value : GoBytes
  deriving DecidableEq

/-- The VaultItemElement interface (part_000 lines 50-55).  Its two
implementations in the source are VaultItemElementString and
VaultItemElementByteArray, so an interface value is one of the two. -/
inductive VaultItemElement where
  | ofString (e : VaultItemElementString)
  | ofByteArray (e : VaultItemElementByteArray)
  deriving DecidableEq

/-- Method Type of VaultItemElementString (part_000 lines 84-86). -/
def VaultItemElementString.elemType (_ : VaultItemElementString) : ElementType :=
  ElementTypeString

/-- Method ID of VaultItemElementString (part_000 lines 89-91). -/
def VaultItemElementString.ID (t : VaultItemElementString) : Int := t.id

/-- Method AsString of VaultItemElementString (part_000 lines 94-96): returns
the element's string value. -/
def VaultItemElementString.AsString (t : VaultItemElementString) : GoString :=
  t.value

/-- Method AsByteArray of VaultItemElementString (part_000 lines 99-101):
returns []byte(t.value), the byte representation of the string value. -/
def VaultItemElementString.AsByteArray (t : VaultItemElementString) : GoBytes :=
  goStringToBytes t.value

/-- Method Type of VaultItemElementByteArray (part_000 lines 104-106). -/
def VaultItemElementByteArray.elemType (_ : VaultItemElementByteArray) : ElementType :=
  ElementTypeByteArray

/-- Method ID of VaultItemElementByteArray (part_000 lines 109-111). -/
def VaultItemElementByteArray.ID (t : VaultItemElementByteArray) : Int := t.id

/-- Method AsString of VaultItemElementByteArray (part_000 lines 114-116):
returns string(t.value), the string representation of the byte-array value. -/
def VaultItemElementByteArray.AsString (t : VaultItemElementByteArray) : GoString :=
  goBytesToString t.value

/-- Method AsByteArray of VaultItemElementByteArray (part_000 lines 119-121):
returns the element's byte-array value. -/
def VaultItemElementByteArray.AsByteArray (t : VaultItemElementByteArray) : GoBytes :=
  t.value

/-- Interface dispatch of ID over the two implementations. -/
def VaultItemElement.ID : VaultItemElement → Int
  | .ofString e => e.ID
  | .ofByteArray e => e.ID

/-- Interface dispatch of Type over the two implementations. -/
def VaultItemElement.elemType : VaultItemElement → ElementType
  | .ofString e => e.elemType
  | .ofByteArray e => e.elemType

/-- Interface dispatch of AsString over the two implementations. -/
def VaultItemElement.AsString : VaultItemElement → GoString
  | .ofString e => e.AsString
  | .ofByteArray e => e.AsString

/-- Interface dispatch of AsByteArray over the two implementations. -/
def VaultItemElement.AsByteArray : VaultItemElement → GoBytes
  | .ofString e => e.AsByteArray
  | .ofByteArray e => e.AsByteArray

/-- convertToVaultItemElement (part_001 lines 52-69): for a null element
pointer the result is nil; for the string tag the trailing wide-string pointer
is decoded; for the byte-array tag the trailing length and value pointer are
copied; for every other tag the switch falls through and the function returns
nil.  The Lean result none models the Go nil interface value. -/
def convertToVaultItemElement (elem : Option sysVaultElement) : Option VaultItemElement :=
  match elem with
  | some e =>
    if e.type = vaultElementTypeString then
      some (.ofString { id := e.ID, value := utf16PtrToString e.strData })
    else if e.type = vaultElementTypeByteArray then
      some (.ofByteArray { id := e.ID, value := goBytes e.baValue e.baLength })
    else
      none
  | none => none

namespace Sys

/-- syscall.Filetime from the Go standard library: two unsigned 32-bit halves
of a Windows file-time. -/
structure Filetime where
  LowDateTime : Nat
  HighDateTime : Nat
  deriving DecidableEq

/-- Wrap-around of Go int64 arithmetic. -/
def int64Wrap (n : Int) : Int := (n + 2 ^ 63) % 2 ^ 64 - 2 ^ 63

/-- Modelled from the Go standard library, syscall.Filetime.Nanoseconds:
nsec := int64(HighDateTime) shifted left 32 bits plus int64(LowDateTime),
minus 116444736000000000 (100-nanosecond intervals between the Windows epoch
and the Unix epoch), times 100.  Every int64 operation wraps modulo 2^64;
the interleaved wraps compose into the single outer wrap written here. -/
def Filetime.Nanoseconds (ft : Filetime) : Int :=
  int64Wrap ((((ft.HighDateTime : Int) * 2 ^ 32 + (ft.LowDateTime : Int))
    - 116444736000000000) * 100)

end Sys

/-- Modelled from the Go standard library, time.Unix(sec, nsec): the point in
time sec seconds plus nsec nanoseconds after the Unix epoch, represented here
as the total number of nanoseconds since the Unix epoch. -/
def timeUnix (sec nsec : Int) : Int := sec * 1000000000 + nsec

/-- VaultItem (part_000 lines 36-43).  The ID is an opaque 128-bit UUID value.
The three property slots hold nil (none) or an owned element.  LastModified is
a time.Time, represented as nanoseconds since the Unix epoch. -/
structure VaultItem where
  ID : Nat
  Name : GoString
  Resource : Option VaultItemElement
  Identity : Option VaultItemElement
  Authenticator : Option VaultItemElement
  LastModified : Int
  deriving DecidableEq

/-- sysVaultItem7 (syscall.go lines 78-88): the raw item record in the
Windows 7 layout.  Name is a wide-string pointer (none models null), the three
element pointers carry the raw element records they point to (none models
null), Properties is an opaque pointer value. -/
structure sysVaultItem7 where
  ID : Nat
  Name : Option WideBuf
  Resource : Option sysVaultElement
  Identity : Option sysVaultElement
  Authenticator : Option sysVaultElement
  Filetime : Sys.Filetime
  Flags : Nat
  PropertiesCount : Nat
  Properties : Nat

/-- sysVaultItem8 (syscall.go lines 90-101): the raw item record in the
Windows 8+ layout; identical to sysVaultItem7 except for the PackageSid
pointer inserted between Authenticator and Filetime. -/
structure sysVaultItem8 where
  ID : Nat
  Name : Option WideBuf
  Resource : Option sysVaultElement
  Identity : Option sysVaultElement
  Authenticator : Option sysVaultElement
  PackageSid : Nat
  Filetime : Sys.Filetime
  Flags : Nat
  PropertiesCount : Nat
  Properties : Nat

/-- convertToVaultItem7 (part_001 lines 73-82): field-by-field marshaling of a
Windows 7 raw item record into an owned VaultItem. -/
def convertToVaultItem7 (item : sysVaultItem7) : VaultItem :=
  { ID := item.ID
    Name := utf16PtrToString item.Name
    Resource := convertToVaultItemElement item.Resource
    Identity := convertToVaultItemElement item.Identity
    Authenticator := convertToVaultItemElement item.Authenticator
    LastModified := timeUnix 0 item.Filetime.Nanoseconds }

/-- convertToVaultItem8 (part_001 lines 86-95): field-by-field marshaling of a
Windows 8+ raw item record into an owned VaultItem; the PackageSid field of
the raw record is not read. -/
def convertToVaultItem8 (item : sysVaultItem8) : VaultItem :=
  { ID := item.ID
    Name := utf16PtrToString item.Name
    Resource := convertToVaultItemElement item.Resource
    Identity := convertToVaultItemElement item.Identity
    Authenticator := convertToVaultItemElement item.Authenticator
    LastModified := timeUnix 0 item.Filetime.Nanoseconds }

/-- isWindows7 (syscall.go lines 104-109): the packed version word from
windows.GetVersion; the low byte is the major version, the next byte the
minor version; Windows 7 is major 6, minor 1. -/
def isWindows7 (ver : Nat) : Bool :=
  ver % 256 == 6 && (ver / 256) % 256 == 1

/-- A native vault handle (syscall.Handle is a uintptr). -/
abbrev Handle := Nat

/-- syscall.InvalidHandle from the Go standard library: the all-ones uintptr. -/
def InvalidHandle : Handle := 2 ^ 64 - 1

/-- sysVaultInformationKind (syscall.go line 30) is a uint32. -/
abbrev sysVaultInformationKind := Nat

def vaultInformationKindName : sysVaultInformationKind := 0x01
def vaultInformationKindPath7 : sysVaultInformationKind := 0x08
def vaultInformationKindPath8 : sysVaultInformationKind := 0x04

/-- sysVaultOpenVault (syscall.go lines 137-148): the native VaultOpenVault
call is modelled by an oracle mapping the vault id to the returned status and
output handle.  A non-zero status is returned as an error carrying exactly
that status (Go: (syscall.Errno)(ret)); otherwise the handle is returned. -/
def sysVaultOpenVault (native : Nat → Nat × Handle) (id : Nat) : Except Nat Handle :=
  let r := native id
  if r.1 ≠ 0 then .error r.1 else .ok r.2

/-- sysVaultCloseVault (syscall.go lines 152-160): the native VaultCloseVault
call is modelled by an oracle mapping the handle to the returned status.  On a
non-zero status the function returns the error carrying that status (modelled
as some status); on success it returns nil (none). -/
def sysVaultCloseVault (native : Handle → Nat) (handle : Handle) : Option Nat :=
  if native handle ≠ 0 then some (native handle) else none

/-- Vault (part_000 lines 17-23): an open credential vault. -/
structure Vault where
  ID : Nat
  Name : GoString
  Path : GoString
  handle : Handle
  deriving DecidableEq

/-- Vault.Close (winvault.go lines 87-90): calls sysVaultCloseVault on the
stored handle, discarding its result (the Go statement ignores the returned
error), then overwrites the handle with InvalidHandle.  Close itself returns
no value; its only caller-visible effect is the modified vault record. -/
def Vault.Close (native : Handle → Nat) (t : Vault) : Vault :=
  let _ := sysVaultCloseVault native t.handle
  { t with handle := InvalidHandle }

/-- The native response to one VaultGetInformation call: status code and, on
success, the wide-string value written into the information record. -/
structure InfoNative where
  status : Nat
  value : Option WideBuf

/-- sysVaultGetInformationString (syscall.go lines 164-175): the native
VaultGetInformation call is modelled by an oracle mapping handle and kind to
the response.  A non-zero status is returned as an error carrying exactly that
status; otherwise the returned wide string is decoded and returned. -/
def sysVaultGetInformationString (native : Handle → sysVaultInformationKind → InfoNative)
    (handle : Handle) (kind : sysVaultInformationKind) : Except Nat GoString :=
  let r := native handle kind
  if r.status ≠ 0 then .error r.status else .ok (utf16PtrToString r.value)

/-- sysVaultGetItem7 (syscall.go lines 225-241): the native VaultGetItem call
for a Windows 7 descriptor is modelled by an oracle mapping the descriptor to
the returned status and, on success, the full raw detail record.  A non-zero
status is returned as an error carrying that status; on success the raw record
is marshaled with convertToVaultItem7 (the native detail buffer is freed once
after marshaling). -/
def sysVaultGetItem7 (native : sysVaultItem7 → Nat × sysVaultItem7)
    (descriptor : sysVaultItem7) : Except Nat VaultItem :=
  let r := native descriptor
  if r.1 ≠ 0 then .error r.1 else .ok (convertToVaultItem7 r.2)

/-- sysVaultGetItem8 (syscall.go lines 245-262): as sysVaultGetItem7 but for
the Windows 8+ layout, marshaling with convertToVaultItem8. -/
def sysVaultGetItem8 (native : sysVaultItem8 → Nat × sysVaultItem8)
    (descriptor : sysVaultItem8) : Except Nat VaultItem :=
  let r := native descriptor
  if r.1 ≠ 0 then .error r.1 else .ok (convertToVaultItem8 r.2)

/-- The loop over Windows 7 descriptors in sysVaultEnumerateItems (syscall.go
lines 200-205): each descriptor's detail is fetched; on success the item is
appended to the result, on failure the descriptor is skipped. -/
def enumItemsLoop7 (fetch : sysVaultItem7 → Except Nat VaultItem) :
    List sysVaultItem7 → List VaultItem → List VaultItem
  | [], result => result
  | d :: rest, result =>
    match fetch d with
    | .ok item => enumItemsLoop7 fetch rest (result ++ [item])
    | .error _ => enumItemsLoop7 fetch rest result

/-- The loop over Windows 8+ descriptors in sysVaultEnumerateItems (syscall.go
lines 213-218): identical to enumItemsLoop7 up to the layout. -/
def enumItemsLoop8 (fetch : sysVaultItem8 → Except Nat VaultItem) :
    List sysVaultItem8 → List VaultItem → List VaultItem
  | [], result => result
  | d :: rest, result =>
    match fetch d with
    | .ok item => enumItemsLoop8 fetch rest (result ++ [item])
    | .error _ => enumItemsLoop8 fetch rest result

/-- The native layer's response to one VaultEnumerateItems call on a given
handle: the status code of the enumerate call, the returned descriptor buffer
under both layout reinterpretations (items7 for the Windows 7 cast of the
buffer, items8 for the Windows 8+ cast), and the VaultGetItem responses for
the per-descriptor detail fetches. -/
structure EnumNative where
  enumStatus : Nat
  items7 : List sysVaultItem7
  items8 : List sysVaultItem8
  getItem7 : sysVaultItem7 → Nat × sysVaultItem7
  getItem8 : sysVaultItem8 → Nat × sysVaultItem8

/-- sysVaultEnumerateItems (syscall.go lines 179-221): when the native
enumerate call fails the error carrying its status is returned and nothing is
freed; when it succeeds, VaultFree on the enumeration buffer is deferred (it
runs exactly once, when the function returns), the descriptor list selected by
useAPI7 is walked fetching each item's detail, failed fetches are skipped,
and the collected items are returned with a nil error.  The second component
of the result counts the VaultFree calls made on the enumeration buffer. -/
def sysVaultEnumerateItems (useAPI7 : Bool) (native : EnumNative) :
    Except Nat (List VaultItem) × Nat :=
  if native.enumStatus ≠ 0 then
    (.error native.enumStatus, 0)
  else
    let result :=
      if useAPI7 then
        enumItemsLoop7 (sysVaultGetItem7 native.getItem7) native.items7 []
      else
        enumItemsLoop8 (sysVaultGetItem8 native.getItem8) native.items8 []
    (.ok result, 1)

/-- The well-known Win32 status ERROR_FILE_NOT_FOUND. -/
def ERROR_FILE_NOT_FOUND : Nat := 2

/-- The well-known Win32 status ERROR_PATH_NOT_FOUND. -/
def ERROR_PATH_NOT_FOUND : Nat := 3

/-- The well-known Win32 status ERROR_ACCESS_DENIED. -/
def ERROR_ACCESS_DENIED : Nat := 5

/-- The named sentinel error kinds of the Go standard library that callers
match against with errors.Is: fs.ErrNotExist and fs.ErrPermission. -/
inductive GoSentinel where
  | errNotExist
  | errPermission

/-- Modelled from the Go standard library, syscall.Errno.Is on Windows, which
every error returned by the wrappers inherits (they return the raw status as a
syscall.Errno): the errno matches ErrNotExist for ERROR_FILE_NOT_FOUND and
ERROR_PATH_NOT_FOUND, and ErrPermission for ERROR_ACCESS_DENIED.  The
additional POSIX-alias arms of the standard library (ENOENT, EACCES, EPERM,
application-error values outside the Win32 status space) are omitted as
unreachable from the vault API, which returns Win32 statuses. -/
def errnoIs (e : Nat) : GoSentinel → Bool
  | .errNotExist => e == ERROR_FILE_NOT_FOUND || e == ERROR_PATH_NOT_FOUND
  | .errPermission => e == ERROR_ACCESS_DENIED

/-- What a Go caller observes from errors.Is applied to a wrapper's result:
a successful result matches no sentinel, an error matches a sentinel exactly
when its errno does. -/
def exceptErrnoIs {α : Type} (r : Except Nat α) (s : GoSentinel) : Bool :=
  match r with
  | .error e => errnoIs e s
  | .ok _ => false

/-- Concrete Windows 8+ descriptor record used in the enumeration witness. -/
def witnessItem8 (n : Nat) : sysVaultItem8 :=
  ⟨n, none, none, none, none, 0, ⟨0, 0⟩, 0, 0, 0⟩

/-- Concrete native behavior used in the enumeration witness: a successful
enumerate call returning three descriptors, with the per-item detail fetch
failing exactly for the descriptor with id 2. -/
def witnessEnumNative : EnumNative :=
  { enumStatus := 0
    items7 := []
    items8 := [witnessItem8 1, witnessItem8 2, witnessItem8 3]
    getItem7 := fun d => (0, d)
    getItem8 := fun d => (if d.ID == 2 then 1 else 0, d) }

/-- Unfolding lemma: the enumeration loop over Windows 7 descriptors collects,
after the accumulator, exactly the successfully fetched items, in descriptor
order. -/
theorem enumItemsLoop7_eq (fetch : sysVaultItem7 → Except Nat VaultItem)
    (ds : List sysVaultItem7) (acc : List VaultItem) :
    enumItemsLoop7 fetch ds acc
      = acc ++ ds.filterMap (fun d => (fetch d).toOption) := by
  induction ds generalizing acc with
  | nil => simp [enumItemsLoop7]
  | cons d rest ih =>
    cases hf : fetch d with
    | ok item => simp [enumItemsLoop7, hf, ih, Except.toOption]
    | error e => simp [enumItemsLoop7, hf, ih, Except.toOption]

/-- Unfolding lemma: the enumeration loop over Windows 8+ descriptors
collects, after the accumulator, exactly the successfully fetched items, in
descriptor order. -/
theorem enumItemsLoop8_eq (fetch : sysVaultItem8 → Except Nat VaultItem)
    (ds : List sysVaultItem8) (acc : List VaultItem) :
    enumItemsLoop8 fetch ds acc
      = acc ++ ds.filterMap (fun d => (fetch d).toOption) := by
  induction ds generalizing acc with
  | nil => simp [enumItemsLoop8]
  | cons d rest ih =>
    cases hf : fetch d with
    | ok item => simp [enumItemsLoop8, hf, ih, Except.toOption]
    | error e => simp [enumItemsLoop8, hf, ih, Except.toOption]

/-- C1 counterexample: at the concrete non-null element record with native
type tag 3 (neither the text tag 7 nor the byte-sequence tag 8), the element
decoder does not return an Unsupported variant carrying the tag; it returns no
element at all (the Go function returns nil, here none). -/
theorem convertToVaultItemElement_unknown_tag_absent :
    convertToVaultItemElement (some ⟨1, 3, none, 0, none⟩) = none
    ∧ (convertToVaultItemElement (some ⟨1, 3, none, 0, none⟩)).isSome = false :=
  ⟨rfl, rfl⟩

/-- C1 (amended): for every non-null raw element record whose native type tag
is neither the text tag nor the byte-sequence tag, convertToVaultItemElement
returns nil (an absent element); it never fails, and it never reads the
type-specific trailing fields - the result is the same for every trailing
payload, which the universal quantification over both trailing views states. -/
theorem convertToVaultItemElement_unknown_tag_none
    (id ty : Int) (sd : Option WideBuf) (bl : Nat) (bv : Option (Nat → Nat))
    (h7 : ty ≠ vaultElementTypeString) (h8 : ty ≠ vaultElementTypeByteArray) :
    convertToVaultItemElement (some ⟨id, ty, sd, bl, bv⟩) = none := by
  simp [convertToVaultItemElement, h7, h8]

/-- Witness for the amended C1 theorem at the concrete tag 3. -/
theorem convertToVaultItemElement_unknown_tag_none_witness :
    convertToVaultItemElement (some ⟨(1 : Int), (3 : Int), none, 0, none⟩) = none :=
  convertToVaultItemElement_unknown_tag_none 1 3 none 0 none (by decide) (by decide)

/-- C2: whenever the native enumerate call succeeds, sysVaultEnumerateItems
returns success (no error), and the result contains exactly the items whose
per-item detail fetch succeeded, in their original enumeration order, with the
failed items omitted (the filterMap of the detail fetch over the enumerated
descriptors). -/
theorem sysVaultEnumerateItems_skips_failed_items (useAPI7 : Bool)
    (native : EnumNative) (h : native.enumStatus = 0) :
    (sysVaultEnumerateItems useAPI7 native).1
      = .ok (if useAPI7 then
          native.items7.filterMap (fun d => (sysVaultGetItem7 native.getItem7 d).toOption)
        else
          native.items8.filterMap (fun d => (sysVaultGetItem8 native.getItem8 d).toOption)) := by
  cases useAPI7 <;>
    simp [sysVaultEnumerateItems, h, enumItemsLoop7_eq, enumItemsLoop8_eq]

/-- Witness for C2: three enumerated descriptors with the detail fetch failing
for descriptor 2 of 3; the listing succeeds and yields exactly items 1 and 3,
in order. -/
theorem sysVaultEnumerateItems_skips_failed_items_witness :
    (sysVaultEnumerateItems false witnessEnumNative).1
      = .ok [convertToVaultItem8 (witnessItem8 1), convertToVaultItem8 (witnessItem8 3)] := by
  rw [sysVaultEnumerateItems_skips_failed_items false witnessEnumNative rfl]
  rfl

/-- C3: a Legacy-layout (Windows 7) raw record and a Current-layout
(Windows 8+) raw record whose logical fields (id, name, resource, identity,
authenticator, file-time) are identical marshal to identical VaultItem
results; the PackageSid field and the non-logical fields (flags, property
count, properties pointer) do not influence the result. -/
theorem convertToVaultItem7_eq_convertToVaultItem8
    (id : Nat) (name : Option WideBuf) (r i a : Option sysVaultElement)
    (ft : Sys.Filetime) (fl pc pr sid fl' pc' pr' : Nat) :
    convertToVaultItem7 ⟨id, name, r, i, a, ft, fl, pc, pr⟩
      = convertToVaultItem8 ⟨id, name, r, i, a, sid, ft, fl', pc', pr'⟩ := rfl

/-- C4: for every native behavior - in particular however many of the
per-item detail fetches fail - the VaultFree call on the enumeration buffer
runs exactly once when the native enumerate call succeeded and does not run
when the enumerate call itself failed. -/
theorem sysVaultEnumerateItems_free_count (useAPI7 : Bool) (native : EnumNative) :
    (sysVaultEnumerateItems useAPI7 native).2
      = if native.enumStatus = 0 then 1 else 0 := by
  by_cases h : native.enumStatus = 0 <;> simp [sysVaultEnumerateItems, h]

/-- C5 counterexample: at a concrete vault, the caller-visible result of
Vault.Close is identical when the native close call fails with status 5 and
when it succeeds with status 0, and in both cases it consists only of the
vault record with the handle invalidated: Close discards the error returned by
sysVaultCloseVault, so the caller of Close cannot observe any non-zero native
status. -/
theorem vault_Close_ignores_native_status :
    Vault.Close (fun _ => 5) ⟨0, [], [], 7⟩ = Vault.Close (fun _ => 0) ⟨0, [], [], 7⟩
    ∧ Vault.Close (fun _ => 5) ⟨0, [], [], 7⟩ = ⟨0, [], [], InvalidHandle⟩ :=
  ⟨rfl, rfl⟩

/-- C5 (amended): a native-call failure during close surfaces immediately as
an error carrying the non-zero status to the caller of the wrapper
sysVaultCloseVault; the public Vault.Close discards that error and only
invalidates the handle, so the caller of Close cannot observe the status. -/
theorem sysVaultCloseVault_error_surfaces (native : Handle → Nat) (h : Handle)
    (t : Vault) (hne : native h ≠ 0) :
    sysVaultCloseVault native h = some (native h)
    ∧ Vault.Close native t = { t with handle := InvalidHandle } := by
  refine ⟨?_, rfl⟩
  simp [sysVaultCloseVault, hne]

/-- Witness for the amended C5 theorem at a concrete failing native close. -/
theorem sysVaultCloseVault_error_surfaces_witness :
    sysVaultCloseVault (fun _ => 5) 3 = some 5
    ∧ Vault.Close (fun _ => 5) ⟨0, [], [], 3⟩ = ⟨0, [], [], InvalidHandle⟩ :=
  sysVaultCloseVault_error_surfaces (fun _ => 5) 3 ⟨0, [], [], 3⟩ (by decide)

/-- C6: every non-zero native status returned by a wrapped operation becomes
an error carrying exactly that status; and the errors carrying the well-known
not-found and access-denied statuses match the named sentinel kinds
(ErrNotExist, ErrPermission) that Go callers branch on with errors.Is, without
inspecting the raw code. -/
theorem native_status_error_mapping
    (nOpen nOpen2 : Nat → Nat × Handle) (id id2 : Nat)
    (nInfo : Handle → sysVaultInformationKind → InfoNative)
    (handle : Handle) (kind : sysVaultInformationKind)
    (h1 : (nOpen id).1 ≠ 0)
    (h2 : (nOpen2 id2).1 = ERROR_ACCESS_DENIED)
    (h3 : (nInfo handle kind).status = ERROR_FILE_NOT_FOUND) :
    sysVaultOpenVault nOpen id = .error (nOpen id).1
    ∧ exceptErrnoIs (sysVaultOpenVault nOpen2 id2) .errPermission = true
    ∧ exceptErrnoIs (sysVaultGetInformationString nInfo handle kind) .errNotExist = true := by
  refine ⟨?_, ?_, ?_⟩
  · simp [sysVaultOpenVault, h1]
  · simp [sysVaultOpenVault, h2, exceptErrnoIs, errnoIs, ERROR_ACCESS_DENIED]
  · simp [sysVaultGetInformationString, h3, exceptErrnoIs, errnoIs,
      ERROR_FILE_NOT_FOUND]

/-- Witness for C6: a generic failing open carrying status 1168, an open
failing with the access-denied status, and an information fetch failing with
the file-not-found status. -/
theorem native_status_error_mapping_witness :
    sysVaultOpenVault (fun _ => (1168, 0)) 0 = .error 1168
    ∧ exceptErrnoIs (sysVaultOpenVault (fun _ => (5, 0)) 0) .errPermission = true
    ∧ exceptErrnoIs (sysVaultGetInformationString (fun _ _ => ⟨2, none⟩) 0 1) .errNotExist
        = true :=
  native_status_error_mapping (fun _ => (1168, 0)) (fun _ => (5, 0)) 0 0
    (fun _ _ => ⟨2, none⟩) 0 1 (by decide) rfl rfl

/-- C7: a null input pointer makes the wide-string decoder return the empty
string and makes the byte copier return the empty byte slice for every length
argument; both are total functions of their modelled inputs, so neither call
fails. -/
theorem null_pointer_decoders_empty :
    utf16PtrToString none = [] ∧ ∀ len : Nat, goBytes none len = [] :=
  ⟨rfl, fun _ => rfl⟩

/-- C8: on a non-null buffer holding the two code units of ab followed by a
zero unit and then arbitrary further memory, the scan reads exactly 3 code
units and never reads any code unit past the first zero (the result is
independent of the trailing memory, over which the statement quantifies), and
the decoder returns exactly the two-character string ab. -/
theorem utf16PtrToString_ab_exact_read (junk : List Nat)
    (h : 0 ∈ 97 :: 98 :: 0 :: junk) :
    utf16Scan (97 :: 98 :: 0 :: junk) h = ([97, 98], 3)
    ∧ utf16PtrToString (some ⟨97 :: 98 :: 0 :: junk, h⟩) = [97, 98] :=
  ⟨rfl, rfl⟩

/-- Witness for C8 at the exact three-unit buffer. -/
theorem utf16PtrToString_ab_exact_read_witness :
    utf16Scan (97 :: 98 :: 0 :: []) (by decide) = ([97, 98], 3)
    ∧ utf16PtrToString (some ⟨97 :: 98 :: 0 :: [], by decide⟩) = [97, 98] :=
  utf16PtrToString_ab_exact_read [] (by decide)

/-- C9: a non-null byte-sequence element record whose length field is 0
decodes to a present byte-array element holding the empty owned byte slice -
never to an absent result - for every value pointer and every string-view of
the trailing memory. -/
theorem convertToVaultItemElement_zero_length_bytes (id : Int)
    (sd : Option WideBuf) (bv : Option (Nat → Nat)) :
    convertToVaultItemElement (some ⟨id, vaultElementTypeByteArray, sd, 0, bv⟩)
      = some (.ofByteArray ⟨id, []⟩) := by
  cases bv <;> rfl

/-- C10: the accessor methods of both element implementations are total and
mutually consistent: on a string element AsByteArray is exactly the byte
conversion of AsString, on a byte-array element AsString is exactly the string
conversion of AsByteArray, and the same consistency holds through the
interface dispatch on every element value regardless of its variant, so
neither accessor fails on the wrong variant. -/
theorem element_accessors_total_consistent
    (s : VaultItemElementString) (b : VaultItemElementByteArray)
    (e : VaultItemElement) :
    s.AsByteArray = goStringToBytes s.AsString
    ∧ b.AsString = goBytesToString b.AsByteArray
    ∧ e.AsByteArray = goStringToBytes e.AsString
    ∧ e.AsString = goBytesToString e.AsByteArray := by
  refine ⟨rfl, rfl, ?_, ?_⟩ <;> cases e <;> rfl

end Winvault
